import Mathlib

/-!
Verification of the run-profile module of the RIDE test-runner plugin
(`src/robotide/contrib/testrunner/runprofiles.py`).

The non-GUI logic of the module is shallowly embedded here:

* Python strings are `String`; byte strings (process stderr) are also
  modelled as `String` since only substring membership is inspected.
* The profile settings read through `BaseProfile.__getattr__` are collected
  in a `Profile` structure; the host plugin's attribute store is an abstract
  `String → Option α` map.
* Environment interaction (`os.path.abspath`, `subprocess.call` probes,
  `format_time`) is passed in explicitly: `RunEnv.abspath`, a probe function
  `String → Option Int` (`none` models an `OSError` on spawn, `some r` a
  process that ran and exited with status `r`), and a timestamp string.
* The Windows-only shell round-trip of `_parse_windows_command` is out of
  scope; `_get_arguments` is modelled as the POSIX branch
  (`self._defined_arguments.split()`), and `os.path.dirname` follows the
  POSIX implementation.

All string helpers are re-implemented by structural recursion on `List Char`
so that every definition evaluates inside the kernel.
-/

/-- Python `str.split()` / `str.strip()` whitespace class
(space, tab, newline, carriage return, vertical tab, form feed). -/
def isPySpace (c : Char) : Bool :=
  c = ' ' || c = '\t' || c = '\n' || c = '\r' || c = '\x0b' || c = '\x0c'

/-- Strip characters satisfying `isPySpace` from both ends of a character
list: the model of Python `str.strip()` (on `List Char`). -/
def pyStripList (l : List Char) : List Char :=
  ((l.dropWhile isPySpace).reverse.dropWhile isPySpace).reverse

/-- Python `str.strip()`. -/
def pyStrip (s : String) : String :=
  String.mk (pyStripList s.data)

/-- Split a character list at every character satisfying `p`, keeping empty
segments (the behaviour of Python `str.split(sep)` for a one-character
separator, and the segment structure of whitespace splitting). -/
def splitOnPred (p : Char → Bool) : List Char → List (List Char)
  | [] => [[]]
  | c :: rest =>
    let r := splitOnPred p rest
    if p c then [] :: r
    else
      match r with
      | [] => [[c]]
      | seg :: segs => (c :: seg) :: segs

/-- Python `str.split()` with no separator: split on whitespace runs and
drop empty segments. -/
def pySplitWs (s : String) : List String :=
  ((splitOnPred isPySpace s.data).filter (fun seg => seg ≠ [])).map String.mk

/-- Whether `p` occurs as a contiguous sublist of `l`: the model of Python
`in` on strings / bytes. -/
def subListChars (p : List Char) : List Char → Bool
  | [] => p.isEmpty
  | c :: rest => p.isPrefixOf (c :: rest) || subListChars p rest

/-- Python `needle in haystack` for strings. -/
def containsSub (needle haystack : String) : Bool :=
  subListChars needle.data haystack.data

/-- The settings a `PybotProfile` / `CustomScriptProfile` reads while
building a command line (`default_settings` keys of `runprofiles.py`,
plus the custom profile's `runner_script` and the suite name read from
`self.plugin.model.suite.name`). -/
structure Profile where
  arguments : String
  output_directory : String
  include_tags : String
  exclude_tags : String
  are_log_names_with_suite_name : Bool
  are_log_names_with_timestamp : Bool
  are_saving_logs : Bool
  apply_include_tags : Bool
  apply_exclude_tags : Bool
  runner_script : String
  suite_name : String

/-- A profile with every setting at its declared default
(`PybotProfile.default_settings`, `runner_script` default of the custom
profile), and an empty suite name. -/
def defaultProfile : Profile :=
  { arguments := "", output_directory := "", include_tags := "",
    exclude_tags := "",
    are_log_names_with_suite_name := false,
    are_log_names_with_timestamp := false,
    are_saving_logs := false,
    apply_include_tags := false,
    apply_exclude_tags := false,
    runner_script := "", suite_name := "" }

/-- The pieces of the process environment `get_command_args` consults:
`os.path.abspath`, kept abstract. -/
structure RunEnv where
  abspath : String → String

/-- One guarded `args.extend(new)` step of `get_command_args`:
extends `args` with `new` when `cond` holds, else leaves it unchanged. -/
def addArgs (cond : Prop) [Decidable cond] (args new : List String) :
    List String :=
  if cond then args ++ new else args

/-- `PybotProfile._get_tags_from_string`: split the tag string on commas,
strip each piece and remove its remaining space characters, and keep the
non-empty results, in order. -/
def PybotProfile.get_tags_from_string (tag_string : String) : List String :=
  (((splitOnPred (fun c => c = ',') tag_string.data).map
      (fun seg => (pyStripList seg).filter (fun c => c ≠ ' '))).filter
    (fun seg => seg ≠ [])).map String.mk

/-- The `log_name_format` of `get_command_args`: `'%s'` by default, the
suite name as prefix when `are_log_names_with_suite_name` is set. -/
def PybotProfile.log_name_format (P : Profile) (s : String) : String :=
  if P.are_log_names_with_suite_name = true
  then P.suite_name ++ "-" ++ s else s

/-- The first guarded `extend` of `get_command_args`: the `-d` /
`--outputdir` flag with the absolute output directory. -/
def PybotProfile.step_outputdir (P : Profile) (env : RunEnv)
    (args : List String) : List String :=
  addArgs (P.output_directory ≠ "" ∧ "--outputdir" ∉ args ∧ "-d" ∉ args)
    args ["-d", env.abspath P.output_directory]

/-- The `-l` / `--log` `extend` of `get_command_args` (inside the
suite-name branch). -/
def PybotProfile.step_log (P : Profile) (args : List String) :
    List String :=
  addArgs
    (P.are_log_names_with_suite_name = true ∧ "--log" ∉ args ∧ "-l" ∉ args)
    args ["-l", PybotProfile.log_name_format P "Log.html"]

/-- The `-r` / `--report` `extend` of `get_command_args`. -/
def PybotProfile.step_report (P : Profile) (args : List String) :
    List String :=
  addArgs
    (P.are_log_names_with_suite_name = true ∧
      "--report" ∉ args ∧ "-r" ∉ args)
    args ["-r", PybotProfile.log_name_format P "Report.html"]

/-- The `-o` / `--output` `extend` of `get_command_args`. -/
def PybotProfile.step_output (P : Profile) (args : List String) :
    List String :=
  addArgs
    (P.are_log_names_with_suite_name = true ∧
      "--output" ∉ args ∧ "-o" ∉ args)
    args ["-o", PybotProfile.log_name_format P "Output.xml"]

/-- The `-b` / `--debugfile` `extend` of `get_command_args`. -/
def PybotProfile.step_debugfile (P : Profile) (args : List String) :
    List String :=
  addArgs
    (P.are_saving_logs = true ∧ "--debugfile" ∉ args ∧ "-b" ∉ args)
    args ["-b", PybotProfile.log_name_format P "Message.log"]

/-- The `-T` / `--timestampoutputs` `append` of `get_command_args`. -/
def PybotProfile.step_timestamp (P : Profile) (args : List String) :
    List String :=
  addArgs
    (P.are_log_names_with_timestamp = true ∧
      "--timestampoutputs" ∉ args ∧ "-T" ∉ args)
    args ["-T"]

/-- The `--include=<tag>` appends of `get_command_args`. -/
def PybotProfile.step_include (P : Profile) (args : List String) :
    List String :=
  addArgs (P.apply_include_tags = true ∧ P.include_tags ≠ "")
    args ((PybotProfile.get_tags_from_string P.include_tags).map
      (fun t => "--include=" ++ t))

/-- The `--exclude=<tag>` appends of `get_command_args`. -/
def PybotProfile.step_exclude (P : Profile) (args : List String) :
    List String :=
  addArgs (P.apply_exclude_tags = true ∧ P.exclude_tags ≠ "")
    args ((PybotProfile.get_tags_from_string P.exclude_tags).map
      (fun t => "--exclude=" ++ t))

/-- `PybotProfile.get_command_args`, non-Windows branch of
`_get_arguments`: whitespace-split the user's argument string and run the
guarded `extend` steps in source order; every guard re-checks membership
in the list built so far, exactly as the source's mutable `args` does. -/
def PybotProfile.get_command_args (P : Profile) (env : RunEnv) :
    List String :=
  PybotProfile.step_exclude P
    (PybotProfile.step_include P
      (PybotProfile.step_timestamp P
        (PybotProfile.step_debugfile P
          (PybotProfile.step_output P
            (PybotProfile.step_report P
              (PybotProfile.step_log P
                (PybotProfile.step_outputdir P env
                  (pySplitWs P.arguments))))))))

/-- Python `os.path.splitext` (POSIX, applied by the source only to the
slash-free name `Console.txt`): split at the last dot, unless the name up
to that dot consists solely of dots. -/
def pySplitext (s : String) : String × String :=
  let l := s.data
  let afterRev := l.reverse.takeWhile (fun c => c ≠ '.')
  if afterRev.length = l.length then (s, "")
  else
    let base := l.take (l.length - afterRev.length - 1)
    if base.all (fun c => c = '.') then (s, "")
    else (String.mk base, String.mk ('.' :: afterRev.reverse))

/-- `PybotProfile.get_settings`.  `start_timestamp` stands for
`format_time(time.time(), ...)`, the only environment input. -/
def PybotProfile.get_settings (P : Profile) (start_timestamp : String) :
    List String :=
  if P.are_saving_logs = true then
    let name0 := "Console.txt"
    let name1 :=
      if P.are_log_names_with_timestamp = true then
        let be := pySplitext name0
        be.1 ++ "-" ++ start_timestamp ++ be.2
      else name0
    let name2 :=
      if P.are_log_names_with_suite_name = true
      then P.suite_name ++ "-" ++ name1 else name1
    ["console_log_name", name2]
  else []

/-- Result of `PybotProfile.get_command`: the Python function returns a
candidate command string on acceptance, the literal string `"no pybot"`
(modelled as `noPybot`) when both `try` blocks end in `OSError`, and the
raw integer exit status of the last probe otherwise. -/
inductive CmdResult where
  | cmd (s : String)
  | code (n : Int)
  | noPybot
deriving DecidableEq

/-- Platform-specific second candidate: `"robot.bat" if os.name == "nt"
else "robot"`. -/
def robotVariant (isNT : Bool) : String :=
  if isNT then "robot.bat" else "robot"

/-- Platform-specific legacy candidate: `"pybot.bat" if os.name == "nt"
else "pybot"`. -/
def pybotVariant (isNT : Bool) : String :=
  if isNT then "pybot.bat" else "pybot"

/-- The candidate executables of `PybotProfile.get_command`, in source
order. -/
def candidateNames (isNT : Bool) : List String :=
  ["robot", robotVariant isNT, pybotVariant isNT]

/-- The inner `try` of `PybotProfile.get_command`: probe the legacy
`pybot` candidate; `OSError` on spawn yields the `"no pybot"` sentinel.
Returns the probed names together with the result. -/
def PybotProfile.pybot_fallback (isNT : Bool)
    (probe : String → Option Int) : List String × CmdResult :=
  match probe (pybotVariant isNT) with
  | none => ([pybotVariant isNT], CmdResult.noPybot)
  | some r =>
    ([pybotVariant isNT],
      if r = 251 then CmdResult.cmd (pybotVariant isNT) else CmdResult.code r)

/-- `PybotProfile.get_command` over an abstract probe environment:
`probe c = none` models `call([c, "--version"])` raising `OSError`,
`probe c = some r` an exit with status `r`.  The first component records
the candidates attempted, in order; the second is the returned value. -/
def PybotProfile.get_command (isNT : Bool) (probe : String → Option Int) :
    List String × CmdResult :=
  match probe "robot" with
  | none =>
    let f := PybotProfile.pybot_fallback isNT probe
    ("robot" :: f.1, f.2)
  | some r1 =>
    if r1 = 251 then (["robot"], CmdResult.cmd "robot")
    else
      match probe (robotVariant isNT) with
      | none =>
        let f := PybotProfile.pybot_fallback isNT probe
        ("robot" :: robotVariant isNT :: f.1, f.2)
      | some r2 =>
        if r2 = 251 then
          (["robot", robotVariant isNT], CmdResult.cmd (robotVariant isNT))
        else (["robot", robotVariant isNT], CmdResult.code r2)

/-- The module-level `RF_INSTALLATION_NOT_FOUND` message text. -/
def RF_INSTALLATION_NOT_FOUND : String :=
  "Robot Framework installation not found.<br>\nTo run tests, you need to install Robot Framework separately.<br>\nSee <a href=\"http://robotframework.org\">http://robotframework.org</a> for\ninstallation instructions.\n"

/-- `pluginapi.RideLogMessage(message, notify_user=...)`, reduced to the
fields the profiles set. -/
structure RideLogMessage where
  message : String
  notify_user : Bool
deriving DecidableEq

/-- `PybotProfile._create_error_log_message`: classify stderr text and
return code; the two phrase checks and the 127 check of the source. -/
def PybotProfile.create_error_log_message (error : String)
    (returncode : Int) : Option RideLogMessage :=
  if containsSub "not found" error = true ∨ returncode = 127 ∨
      containsSub "system cannot find the file specified" error = true
  then some { message := RF_INSTALLATION_NOT_FOUND, notify_user := true }
  else none

/-- `CustomScriptProfile._create_error_log_message`: always `None`. -/
def CustomScriptProfile.create_error_log_message (_error : String)
    (_returncode : Int) : Option RideLogMessage :=
  none

/-- `BaseProfile.format_error`, parametric in the subclass's
`_create_error_log_message`. -/
def BaseProfile.format_error
    (create : String → Int → Option RideLogMessage)
    (error : String) (returncode : Int) :
    String × Option RideLogMessage :=
  (error, create error returncode)

/-- `format_error` as dispatched on a `PybotProfile`. -/
def PybotProfile.format_error (error : String) (returncode : Int) :
    String × Option RideLogMessage :=
  BaseProfile.format_error PybotProfile.create_error_log_message
    error returncode

/-- `format_error` as dispatched on a `CustomScriptProfile`. -/
def CustomScriptProfile.format_error (error : String) (returncode : Int) :
    String × Option RideLogMessage :=
  BaseProfile.format_error CustomScriptProfile.create_error_log_message
    error returncode

/-- The "not found" phrase family `_create_error_log_message` looks for:
the shell phrasing `not found` and the Windows phrasing
`system cannot find the file specified`. -/
def notFoundPhrase (error : String) : Prop :=
  containsSub "not found" error = true ∨
    containsSub "system cannot find the file specified" error = true

instance (error : String) : Decidable (notFoundPhrase error) := by
  unfold notFoundPhrase
  infer_instance

/-- Python `str.replace(' ', '_')`, used by `_get_setting_name`. -/
def pySpaceToUnderscore (s : String) : String :=
  String.mk (s.data.map (fun c => if c = ' ' then '_' else c))

/-- `BaseProfile._get_setting_name`: prefix the setting with the profile
name, spaces replaced by underscores. -/
def BaseProfile.get_setting_name (profile_name attr : String) : String :=
  pySpaceToUnderscore profile_name ++ "_" ++ attr

/-- `BaseProfile.__getattr__`: the layered lookup for a setting `name` not
defined on the profile object itself.  `plugin` is the host plugin's
attribute map (`none` models `AttributeError`), `defaults` the profile's
`default_settings` mapping; a `none` result models the re-raised
`AttributeError`. -/
def BaseProfile.getattr {α : Type} (plugin : String → Option α)
    (defaults : String → Option α) (profile_name name : String) :
    Option α :=
  match plugin (BaseProfile.get_setting_name profile_name name) with
  | some v => some v
  | none =>
    match plugin name with
    | some v => some v
    | none => defaults name

/-- `CustomScriptProfile.get_command`: the configured script path with
surrounding whitespace stripped. -/
def CustomScriptProfile.get_command (P : Profile) : String :=
  pyStrip P.runner_script

/-- Python `os.path.dirname` (POSIX `posixpath.dirname`): everything up to
the last slash, with trailing slashes removed unless the head is all
slashes. -/
def dirname (s : String) : String :=
  let l := s.data
  let tailRev := l.reverse.takeWhile (fun c => c ≠ '/')
  let head := l.take (l.length - tailRev.length)
  if head ≠ [] ∧ ¬ head.all (fun c => c = '/') then
    String.mk ((head.reverse.dropWhile (fun c => c = '/')).reverse)
  else String.mk head

/-- `CustomScriptProfile.get_cwd`: `os.path.dirname(self.runner_script)`
on the raw (unstripped) setting. -/
def CustomScriptProfile.get_cwd (P : Profile) : String :=
  dirname P.runner_script

/-- Join character-list segments with a single space: Python
`" ".join(clean_args)` at the character level. -/
def joinWithSpaceChars : List (List Char) → List Char
  | [] => []
  | [x] => x
  | x :: xs => x ++ ' ' :: joinWithSpaceChars xs

/-- Outcome of one `parse_args` call of the runner's argument grammar:
either the parser signalled a help/version query (`Information`), or it
parsed and reports the unknown options it met (empty string: none). -/
inductive ParseOutcome where
  | information
  | result (invalid : String)
deriving DecidableEq

/-- Modelled from the spec: the long/short option names of the external
runner's argument-file syntax that the module relies on (spec section on
external interfaces), together with the help/version query options; the
full grammar lives in `robotide/contrib/testrunner/usages.py` and the
`robotide.utils.ArgumentParser` sources, which are not part of this
repository snapshot. -/
def known_options : List String :=
  ["--outputdir", "-d", "--log", "-l", "--report", "-r", "--output", "-o",
   "--debugfile", "-b", "--timestampoutputs", "-T", "--include", "-i",
   "--exclude", "-e", "--help", "-h", "--version", "--name", "-N",
   "--suite", "-s", "--test", "-t", "--variable", "-v", "--loglevel", "-L",
   "--argumentfile", "-A", "--listener", "--dryrun", "--exitonfailure",
   "--skiponfailure", "--critical", "-c", "--noncritical", "-n"]

/-- Option name of a token, with any `=value` part removed. -/
def optionKey (t : String) : String :=
  String.mk (t.data.takeWhile (fun c => c ≠ '='))

/-- Modelled from the spec: `robotide.utils.ArgumentParser(USAGE).parse_args`
(the parser class is not in this repository snapshot).  A token stream
containing a help or version query raises `Information`; otherwise the
parse returns the unknown option names (tokens that look like options but
are outside the grammar), joined for display, empty when all options were
recognised. -/
def ArgumentParserModel.parse_args (tokens : List String) : ParseOutcome :=
  if tokens.contains "--help" || tokens.contains "-h" ||
      tokens.contains "--version" then
    ParseOutcome.information
  else
    ParseOutcome.result (String.intercalate ", "
      (tokens.filter (fun t =>
        "-".data.isPrefixOf t.data && !known_options.contains (optionKey t))))

/-- Result of `PybotProfile._get_invalid_message`: `ok` models returning
`None`, `msg` an advisory message string, `fatal` the `raise DataError`
pathway of the final `except` clause (including the exception that an
empty backtick segment provokes at `clean_args[idx][0]`). -/
inductive Validation where
  | ok
  | msg (s : String)
  | fatal
deriving DecidableEq

/-- `PybotProfile._get_invalid_message`: split on backticks, strip each
segment, replace non-option segments by the placeholder `arg`, re-join and
whitespace-split, then parse against the runner grammar. -/
def PybotProfile.get_invalid_message (args : String) : Validation :=
  if args = "" then Validation.ok
  else
    let clean := (splitOnPred (fun c => c = '\x60') args.data).map pyStripList
    if clean.any (fun seg => seg = []) then Validation.fatal
    else
      let mapped := clean.map (fun seg =>
        if seg.head? ≠ some '-' then "arg".data else seg)
      let tokens := ((splitOnPred isPySpace (joinWithSpaceChars mapped)).filter
        (fun seg => seg ≠ [])).map String.mk
      match ArgumentParserModel.parse_args tokens with
      | ParseOutcome.information =>
        Validation.msg "Does not execute - help or version option given"
      | ParseOutcome.result invalid =>
        if invalid ≠ "" then Validation.msg ("Unknown option(s): " ++ invalid)
        else Validation.ok

/-- An environment whose `abspath` is the identity, for concrete runs. -/
def envId : RunEnv :=
  { abspath := fun s => s }

/-- An environment resolving every path to the fixed string `"ABS"`. -/
def envABS : RunEnv :=
  { abspath := fun _ => "ABS" }

/-- Concrete profile: user arguments already contain `-d`, and an output
directory is set. -/
def profileUserD : Profile :=
  { defaultProfile with arguments := "-d mydir", output_directory := "odir" }

/-- Concrete profile: no user arguments, an output directory set. -/
def profileODir : Profile :=
  { defaultProfile with output_directory := "odir" }

/-- Concrete profile: exclude tags enabled with an internal space in the
tag string. -/
def profileExclSpace : Profile :=
  { defaultProfile with apply_exclude_tags := true, exclude_tags := "x y" }

/-- Concrete profile: include tags `"a, b ,c"` enabled, exclude tags
`"x y"` enabled. -/
def profileTags : Profile :=
  { defaultProfile with apply_include_tags := true,
                        include_tags := "a, b ,c",
                        apply_exclude_tags := true, exclude_tags := "x y" }

/-- Concrete profile: suite-name log prefixes enabled for suite `Smoke`. -/
def profileSmoke : Profile :=
  { defaultProfile with are_log_names_with_suite_name := true,
                        suite_name := "Smoke" }

/-- Concrete profile: suite `Smoke` with a user-supplied `-l` flag. -/
def profileSmokeUserL : Profile :=
  { defaultProfile with arguments := "-l mylog",
                        are_log_names_with_suite_name := true,
                        suite_name := "Smoke" }

/-- Concrete profile: a runner script path padded with spaces. -/
def profileScriptPadded : Profile :=
  { defaultProfile with runner_script := "  /opt/run.sh  " }

/-- Concrete profile: a whitespace-free runner script path. -/
def profileScript : Profile :=
  { defaultProfile with runner_script := "/opt/run.sh" }

/-- Concrete profile: logs saved, no timestamp or suite-name options. -/
def profileSaveLogs : Profile :=
  { defaultProfile with are_saving_logs := true }

/-! ## Helper lemmas -/

theorem addArgs_pos {cond : Prop} [Decidable cond] (h : cond)
    (args new : List String) : addArgs cond args new = args ++ new := by
  simp [addArgs, h]

theorem addArgs_neg {cond : Prop} [Decidable cond] (h : ¬ cond)
    (args new : List String) : addArgs cond args new = args := by
  simp [addArgs, h]

theorem addArgs_eq_append (cond : Prop) [Decidable cond]
    (args new : List String) :
    ∃ t, addArgs cond args new = args ++ t ∧ (t = new ∨ t = []) := by
  by_cases h : cond
  · exact ⟨new, addArgs_pos h args new, Or.inl rfl⟩
  · exact ⟨[], by simp [addArgs_neg h], Or.inr rfl⟩

theorem addArgs_eq_ite (cond : Prop) [Decidable cond]
    (args new : List String) :
    addArgs cond args new = args ++ if cond then new else [] := by
  unfold addArgs
  split <;> simp

theorem count_addArgs {x : String} {new : List String} (h : x ∉ new)
    (cond : Prop) [Decidable cond] (args : List String) :
    (addArgs cond args new).count x = args.count x := by
  unfold addArgs
  split
  · rw [List.count_append, List.count_eq_zero.mpr h, Nat.add_zero]
  · rfl

theorem mem_addArgs_left {x : String} {args : List String}
    (h : x ∈ args) (cond : Prop) [Decidable cond] (new : List String) :
    x ∈ addArgs cond args new := by
  unfold addArgs
  split
  · exact List.mem_append_left _ h
  · exact h

theorem str_append_ne_right {a t x : String}
    (h : x.data.length < t.data.length) : a ++ t ≠ x := by
  intro he
  have hd := congrArg String.data he
  rw [String.data_append] at hd
  have hl := congrArg List.length hd
  rw [List.length_append] at hl
  omega

theorem str_append_ne_of_get {a t x : String} {i : Nat}
    (hia : i < a.data.length) (hne : a.data.get? i ≠ x.data.get? i) :
    a ++ t ≠ x := by
  intro he
  have hd := congrArg String.data he
  rw [String.data_append] at hd
  apply hne
  rw [← hd, List.get?_append hia]

theorem not_mem_map_prepend {x pre : String} (h : ∀ t, pre ++ t ≠ x)
    (l : List String) : x ∉ l.map (fun t => pre ++ t) := by
  intro hx
  rcases List.mem_map.mp hx with ⟨t, _, ht⟩
  exact h t ht

theorem log_name_format_ne {x s : String} (P : Profile)
    (h1 : x.data.length < s.data.length) :
    PybotProfile.log_name_format P s ≠ x := by
  unfold PybotProfile.log_name_format
  split
  · exact str_append_ne_right h1
  · intro he
    rw [he] at h1
    exact lt_irrefl _ h1

theorem log_name_format_ne_getLast {x s : String} (P : Profile)
    (h0 : s.data ≠ []) (h1 : s.data.getLast? ≠ x.data.getLast?)
    (h2 : s ≠ x) : PybotProfile.log_name_format P s ≠ x := by
  unfold PybotProfile.log_name_format
  split
  · intro he
    have hd := congrArg String.data he
    rw [String.data_append] at hd
    apply h1
    rw [← hd]
    exact (List.getLast?_append_of_ne_nil _ h0).symm
  · exact h2

theorem head?_dropWhile_eq_false {p : Char → Bool} :
    ∀ {l : List Char} {x : Char}, (l.dropWhile p).head? = some x → p x = false := by
  intro l
  induction l with
  | nil => intro x h; simp [List.dropWhile] at h
  | cons c cs ih =>
    intro x h
    rw [List.dropWhile_cons] at h
    split at h
    · exact ih h
    · next hc =>
      simp at h
      rw [← h]
      exact Bool.not_eq_true _ ▸ (by simpa using hc)

theorem reverse_strip_decomp (p : Char → Bool) (m : List Char) :
    m = (m.reverse.dropWhile p).reverse ++ (m.reverse.takeWhile p).reverse := by
  conv_lhs => rw [← List.reverse_reverse m]
  rw [← List.reverse_append, List.takeWhile_append_dropWhile]

theorem pyStripList_decomp (l : List Char) :
    ∃ a b, l = a ++ pyStripList l ++ b ∧
      (∀ c ∈ a, isPySpace c = true) ∧ (∀ c ∈ b, isPySpace c = true) := by
  refine ⟨l.takeWhile isPySpace,
    ((l.dropWhile isPySpace).reverse.takeWhile isPySpace).reverse, ?_, ?_, ?_⟩
  · conv_lhs => rw [← List.takeWhile_append_dropWhile (p := isPySpace) (l := l),
      reverse_strip_decomp isPySpace (l.dropWhile isPySpace)]
    rw [List.append_assoc]
    rfl
  · exact fun c hc => List.mem_takeWhile_imp hc
  · intro c hc
    rw [List.mem_reverse] at hc
    exact List.mem_takeWhile_imp hc

theorem pyStripList_head? {l : List Char} {c : Char}
    (h : (pyStripList l).head? = some c) : isPySpace c = false := by
  unfold pyStripList at h
  have hd : (l.dropWhile isPySpace).head? = some c := by
    rw [reverse_strip_decomp isPySpace (l.dropWhile isPySpace),
      List.head?_append_of_ne_nil]
    · exact h
    · intro hnil
      rw [hnil] at h
      simp at h
  exact head?_dropWhile_eq_false hd

theorem pyStripList_getLast? {l : List Char} {c : Char}
    (h : (pyStripList l).getLast? = some c) : isPySpace c = false := by
  unfold pyStripList at h
  rw [← List.head?_reverse, List.reverse_reverse] at h
  exact head?_dropWhile_eq_false h

/-! ## C9: `CustomScriptProfile.get_command` strips surrounding whitespace -/

/-- C9: for every `runner_script` setting, `CustomScriptProfile.get_command()`
returns the configured script path with leading and trailing whitespace
stripped: the setting decomposes as whitespace + result + whitespace, the
result neither starts nor ends with whitespace, and on the concrete
setting `"  /opt/run.sh  "` the result is `"/opt/run.sh"`. -/
theorem custom_get_command_strips (P : Profile) :
    (∃ a b, P.runner_script.data =
        a ++ (CustomScriptProfile.get_command P).data ++ b ∧
        (∀ c ∈ a, isPySpace c = true) ∧ (∀ c ∈ b, isPySpace c = true)) ∧
    (∀ c, (CustomScriptProfile.get_command P).data.head? = some c →
      isPySpace c = false) ∧
    (∀ c, (CustomScriptProfile.get_command P).data.getLast? = some c →
      isPySpace c = false) ∧
    CustomScriptProfile.get_command profileScriptPadded = "/opt/run.sh" := by
  refine ⟨?_, ?_, ?_, by decide⟩
  · exact pyStripList_decomp P.runner_script.data
  · exact fun c hc => pyStripList_head? hc
  · exact fun c hc => pyStripList_getLast? hc

/-- Witness for `custom_get_command_strips` at the concrete profile of the
claim. -/
theorem custom_get_command_strips_witness :
    ∃ a b, profileScriptPadded.runner_script.data =
      a ++ (CustomScriptProfile.get_command profileScriptPadded).data ++ b ∧
      (∀ c ∈ a, isPySpace c = true) ∧ (∀ c ∈ b, isPySpace c = true) :=
  (custom_get_command_strips profileScriptPadded).1

/-! ## C10: `CustomScriptProfile.get_cwd` -/

/-- C10 counterexample: with `runner_script = "  /opt/run.sh  "`,
`get_cwd()` returns `"  /opt"`, which is not the directory component of
the stripped path `get_command()` returns (`"/opt"`): the claim fails on
settings with surrounding whitespace. -/
theorem custom_get_cwd_counterexample :
    CustomScriptProfile.get_cwd profileScriptPadded ≠
      dirname (CustomScriptProfile.get_command profileScriptPadded) := by
  decide

/-- C10 (amended): `get_cwd()` returns the directory component of the raw
`runner_script` setting; when the setting carries no surrounding
whitespace this coincides with the directory component of the path
`get_command()` returns. -/
theorem custom_get_cwd_dirname (P : Profile) :
    CustomScriptProfile.get_cwd P = dirname P.runner_script ∧
    (pyStrip P.runner_script = P.runner_script →
      CustomScriptProfile.get_cwd P =
        dirname (CustomScriptProfile.get_command P)) := by
  refine ⟨rfl, fun h => ?_⟩
  unfold CustomScriptProfile.get_cwd CustomScriptProfile.get_command
  rw [h]

/-- Witness for `custom_get_cwd_dirname` on a whitespace-free setting. -/
theorem custom_get_cwd_dirname_witness :
    CustomScriptProfile.get_cwd profileScript =
      dirname (CustomScriptProfile.get_command profileScript) :=
  (custom_get_cwd_dirname profileScript).2 (by decide)

theorem str_append_ne_left {a t x : String}
    (h : x.data.length < a.data.length) : a ++ t ≠ x := by
  intro he
  have hd := congrArg String.data he
  rw [String.data_append] at hd
  have hl := congrArg List.length hd
  rw [List.length_append] at hl
  omega

theorem not_mem_pair {x y v : String} (h1 : x ≠ y) (h2 : x ≠ v) :
    x ∉ [y, v] := by
  simp [List.mem_cons, h1, h2]

theorem exists_append_trans {a b c : List String}
    (h1 : ∃ t, b = a ++ t) (h2 : ∃ t, c = b ++ t) : ∃ t, c = a ++ t := by
  obtain ⟨t1, h1⟩ := h1
  obtain ⟨t2, h2⟩ := h2
  exact ⟨t1 ++ t2, by rw [h2, h1, List.append_assoc]⟩

theorem step_outputdir_append (P : Profile) (env : RunEnv)
    (args : List String) :
    ∃ t, PybotProfile.step_outputdir P env args = args ++ t := by
  unfold PybotProfile.step_outputdir addArgs
  split
  · exact ⟨_, rfl⟩
  · exact ⟨[], by simp⟩

theorem step_log_append (P : Profile) (args : List String) :
    ∃ t, PybotProfile.step_log P args = args ++ t := by
  unfold PybotProfile.step_log addArgs
  split
  · exact ⟨_, rfl⟩
  · exact ⟨[], by simp⟩

theorem step_report_append (P : Profile) (args : List String) :
    ∃ t, PybotProfile.step_report P args = args ++ t := by
  unfold PybotProfile.step_report addArgs
  split
  · exact ⟨_, rfl⟩
  · exact ⟨[], by simp⟩

theorem step_output_append (P : Profile) (args : List String) :
    ∃ t, PybotProfile.step_output P args = args ++ t := by
  unfold PybotProfile.step_output addArgs
  split
  · exact ⟨_, rfl⟩
  · exact ⟨[], by simp⟩

theorem step_debugfile_append (P : Profile) (args : List String) :
    ∃ t, PybotProfile.step_debugfile P args = args ++ t := by
  unfold PybotProfile.step_debugfile addArgs
  split
  · exact ⟨_, rfl⟩
  · exact ⟨[], by simp⟩

theorem step_timestamp_append (P : Profile) (args : List String) :
    ∃ t, PybotProfile.step_timestamp P args = args ++ t := by
  unfold PybotProfile.step_timestamp addArgs
  split
  · exact ⟨_, rfl⟩
  · exact ⟨[], by simp⟩

theorem step_include_append (P : Profile) (args : List String) :
    ∃ t, PybotProfile.step_include P args = args ++ t := by
  unfold PybotProfile.step_include addArgs
  split
  · exact ⟨_, rfl⟩
  · exact ⟨[], by simp⟩

theorem step_exclude_append (P : Profile) (args : List String) :
    ∃ t, PybotProfile.step_exclude P args = args ++ t := by
  unfold PybotProfile.step_exclude addArgs
  split
  · exact ⟨_, rfl⟩
  · exact ⟨[], by simp⟩

theorem chain_from_debugfile_append (P : Profile) (args : List String) :
    ∃ t, PybotProfile.step_exclude P (PybotProfile.step_include P
      (PybotProfile.step_timestamp P (PybotProfile.step_debugfile P args))) =
        args ++ t := by
  refine exists_append_trans (exists_append_trans (exists_append_trans
    (step_debugfile_append P args) (step_timestamp_append P _))
    (step_include_append P _)) (step_exclude_append P _)

theorem chain_from_log_append (P : Profile) (args : List String) :
    ∃ t, PybotProfile.step_exclude P (PybotProfile.step_include P
      (PybotProfile.step_timestamp P (PybotProfile.step_debugfile P
        (PybotProfile.step_output P (PybotProfile.step_report P
          (PybotProfile.step_log P args)))))) = args ++ t := by
  refine exists_append_trans (exists_append_trans (exists_append_trans
    (step_log_append P args) (step_report_append P _))
    (step_output_append P _)) (chain_from_debugfile_append P _)

/-! ## C2: the output-directory flag of `get_command_args` -/

/-- C2: when the whitespace-split token list of the argument string already
contains `-d` or `--outputdir`, `get_command_args()` appends no
output-directory flag whatever the `output_directory` setting is (the
counts of `-d` and `--outputdir` tokens are exactly those of the user's
tokens); when neither token is present and `output_directory` is
non-empty, the result is the user tokens followed immediately by `-d` and
the absolute path of the directory. -/
theorem get_command_args_outputdir (P : Profile) (env : RunEnv) :
    (("-d" ∈ pySplitWs P.arguments ∨ "--outputdir" ∈ pySplitWs P.arguments) →
      (PybotProfile.get_command_args P env).count "-d" =
          (pySplitWs P.arguments).count "-d" ∧
        (PybotProfile.get_command_args P env).count "--outputdir" =
          (pySplitWs P.arguments).count "--outputdir") ∧
    ("-d" ∉ pySplitWs P.arguments → "--outputdir" ∉ pySplitWs P.arguments →
      P.output_directory ≠ "" →
      ∃ t, PybotProfile.get_command_args P env =
        pySplitWs P.arguments ++ ["-d", env.abspath P.output_directory] ++ t) := by
  constructor
  · intro h
    have hneg : ¬ (P.output_directory ≠ "" ∧
        "--outputdir" ∉ pySplitWs P.arguments ∧
        "-d" ∉ pySplitWs P.arguments) := by
      rintro ⟨-, hno, hnd⟩
      rcases h with h | h
      · exact hnd h
      · exact hno h
    constructor
    · unfold PybotProfile.get_command_args PybotProfile.step_exclude
        PybotProfile.step_include PybotProfile.step_timestamp
        PybotProfile.step_debugfile PybotProfile.step_output
        PybotProfile.step_report PybotProfile.step_log
        PybotProfile.step_outputdir
      rw [count_addArgs (not_mem_map_prepend
          (fun t => str_append_ne_left (by decide)) _),
        count_addArgs (not_mem_map_prepend
          (fun t => str_append_ne_left (by decide)) _),
        count_addArgs (show ("-d" : String) ∉ ["-T"] by decide),
        count_addArgs (not_mem_pair (by decide)
          ((log_name_format_ne (x := "-d") (s := "Message.log") P
            (by decide)).symm)),
        count_addArgs (not_mem_pair (by decide)
          ((log_name_format_ne (x := "-d") (s := "Output.xml") P
            (by decide)).symm)),
        count_addArgs (not_mem_pair (by decide)
          ((log_name_format_ne (x := "-d") (s := "Report.html") P
            (by decide)).symm)),
        count_addArgs (not_mem_pair (by decide)
          ((log_name_format_ne (x := "-d") (s := "Log.html") P
            (by decide)).symm)),
        addArgs_neg hneg]
    · unfold PybotProfile.get_command_args PybotProfile.step_exclude
        PybotProfile.step_include PybotProfile.step_timestamp
        PybotProfile.step_debugfile PybotProfile.step_output
        PybotProfile.step_report PybotProfile.step_log
        PybotProfile.step_outputdir
      rw [count_addArgs (not_mem_map_prepend
          (fun t => str_append_ne_of_get (a := "--exclude=") (i := 2)
            (by decide) (by decide)) _),
        count_addArgs (not_mem_map_prepend
          (fun t => str_append_ne_of_get (a := "--include=") (i := 2)
            (by decide) (by decide)) _),
        count_addArgs (show ("--outputdir" : String) ∉ ["-T"] by decide),
        count_addArgs (not_mem_pair (by decide)
          ((log_name_format_ne_getLast (x := "--outputdir")
            (s := "Message.log") P (by decide) (by decide) (by decide)).symm)),
        count_addArgs (not_mem_pair (by decide)
          ((log_name_format_ne_getLast (x := "--outputdir")
            (s := "Output.xml") P (by decide) (by decide) (by decide)).symm)),
        count_addArgs (not_mem_pair (by decide)
          ((log_name_format_ne_getLast (x := "--outputdir")
            (s := "Report.html") P (by decide) (by decide) (by decide)).symm)),
        count_addArgs (not_mem_pair (by decide)
          ((log_name_format_ne_getLast (x := "--outputdir")
            (s := "Log.html") P (by decide) (by decide) (by decide)).symm)),
        addArgs_neg hneg]
  · intro hnd hno hdir
    unfold PybotProfile.get_command_args
    have hfire : PybotProfile.step_outputdir P env (pySplitWs P.arguments) =
        pySplitWs P.arguments ++ ["-d", env.abspath P.output_directory] := by
      unfold PybotProfile.step_outputdir
      exact addArgs_pos ⟨hdir, hno, hnd⟩ _ _
    rw [hfire]
    exact chain_from_log_append P
      (pySplitWs P.arguments ++ ["-d", env.abspath P.output_directory])

/-- Witness for `get_command_args_outputdir`: both branches at concrete
profiles. -/
theorem get_command_args_outputdir_witness :
    ((PybotProfile.get_command_args profileUserD envABS).count "-d" =
        (pySplitWs profileUserD.arguments).count "-d" ∧
      (PybotProfile.get_command_args profileUserD envABS).count "--outputdir" =
        (pySplitWs profileUserD.arguments).count "--outputdir") ∧
    ∃ t, PybotProfile.get_command_args profileODir envABS =
      pySplitWs profileODir.arguments ++
        ["-d", envABS.abspath profileODir.output_directory] ++ t := by
  constructor
  · exact (get_command_args_outputdir profileUserD envABS).1 (Or.inl (by decide))
  · exact (get_command_args_outputdir profileODir envABS).2
      (by decide) (by decide) (by decide)

/-! ## C3: include/exclude tag tokens -/

/-- C3 counterexample: the code removes internal spaces from tags rather
than only trimming them.  With `apply_exclude_tags=True` and
`exclude_tags="x y"` (a tag whose whitespace-trimmed form is `"x y"`
itself), the produced arguments contain `--exclude=xy`, not the
`--exclude=x y` token the claim requires. -/
theorem get_tags_exclude_counterexample :
    pyStrip "x y" = "x y" ∧
    "--exclude=x y" ∉ PybotProfile.get_command_args profileExclSpace envId ∧
    PybotProfile.get_command_args profileExclSpace envId =
      ["--exclude=xy"] := by
  refine ⟨by decide, by decide, by decide⟩

/-- C3 (amended): with the remaining settings at their defaults,
`apply_include_tags=True` and `include_tags="a, b ,c"` produce exactly
`--include=a`, `--include=b`, `--include=c`, in that order and free of
whitespace; and each comma-separated exclude tag — stripped of
surrounding whitespace and with all internal space characters removed —
yields an `--exclude=<tag>` token, via `_get_tags_from_string`. -/
theorem get_command_args_tag_tokens (P : Profile) (env : RunEnv)
    (h1 : P.arguments = "") (h2 : P.output_directory = "")
    (h3 : P.are_log_names_with_suite_name = false)
    (h4 : P.are_saving_logs = false)
    (h5 : P.are_log_names_with_timestamp = false)
    (h6 : P.apply_include_tags = true)
    (h7 : P.include_tags = "a, b ,c") :
    PybotProfile.get_command_args P env =
      ["--include=a", "--include=b", "--include=c"] ++
        (if P.apply_exclude_tags = true ∧ P.exclude_tags ≠ "" then
          (PybotProfile.get_tags_from_string P.exclude_tags).map
            (fun t => "--exclude=" ++ t)
        else []) ∧
    ∀ t ∈ (["--include=a", "--include=b", "--include=c"] : List String),
      ∀ c ∈ t.data, isPySpace c = false := by
  refine ⟨?_, by decide⟩
  have e1 : PybotProfile.step_outputdir P env (pySplitWs P.arguments) = [] := by
    unfold PybotProfile.step_outputdir
    rw [h1, addArgs_neg (fun hc => hc.1 h2)]
    rfl
  have e2 : PybotProfile.step_log P [] = [] := by
    unfold PybotProfile.step_log
    exact addArgs_neg (by simp [h3]) _ _
  have e3 : PybotProfile.step_report P [] = [] := by
    unfold PybotProfile.step_report
    exact addArgs_neg (by simp [h3]) _ _
  have e4 : PybotProfile.step_output P [] = [] := by
    unfold PybotProfile.step_output
    exact addArgs_neg (by simp [h3]) _ _
  have e5 : PybotProfile.step_debugfile P [] = [] := by
    unfold PybotProfile.step_debugfile
    exact addArgs_neg (by simp [h4]) _ _
  have e6 : PybotProfile.step_timestamp P [] = [] := by
    unfold PybotProfile.step_timestamp
    exact addArgs_neg (by simp [h5]) _ _
  have e7 : PybotProfile.step_include P [] =
      ["--include=a", "--include=b", "--include=c"] := by
    unfold PybotProfile.step_include
    rw [addArgs_pos ⟨h6, by rw [h7]; decide⟩, h7]
    decide
  unfold PybotProfile.get_command_args
  rw [e1, e2, e3, e4, e5, e6, e7]
  unfold PybotProfile.step_exclude
  exact addArgs_eq_ite _ _ _

/-- Witness for `get_command_args_tag_tokens` at the concrete tag
settings of the claim. -/
theorem get_command_args_tag_tokens_witness :
    PybotProfile.get_command_args profileTags envId =
      ["--include=a", "--include=b", "--include=c"] ++
        (if profileTags.apply_exclude_tags = true ∧
            profileTags.exclude_tags ≠ "" then
          (PybotProfile.get_tags_from_string profileTags.exclude_tags).map
            (fun t => "--exclude=" ++ t)
        else []) :=
  (get_command_args_tag_tokens profileTags envId rfl rfl rfl rfl rfl rfl
    rfl).1

/-! ## C8: suite-name log/report/output flags -/

/-- C8: with `are_log_names_with_suite_name=True` and suite name `Smoke`,
when none of `-l`/`--log`, `-r`/`--report`, `-o`/`--output` occurs among
the user's tokens (and the absolute output directory does not collide
with those flags), `get_command_args()` contains the consecutive pairs
`-l Smoke-Log.html`, `-r Smoke-Report.html`, `-o Smoke-Output.xml`; and
each pair is suppressed (its flag count stays that of the user's tokens)
when its long or short flag is already present. -/
theorem get_command_args_suite_logs (P : Profile) (env : RunEnv)
    (hs : P.are_log_names_with_suite_name = true)
    (hn : P.suite_name = "Smoke")
    (habs : env.abspath P.output_directory ∉
      (["-l", "--log", "-r", "--report", "-o", "--output"] : List String)) :
    ((∀ f ∈ (["-l", "--log", "-r", "--report", "-o", "--output"] :
        List String), f ∉ pySplitWs P.arguments) →
      ∃ l t, PybotProfile.get_command_args P env =
        l ++ ["-l", "Smoke-Log.html", "-r", "Smoke-Report.html",
          "-o", "Smoke-Output.xml"] ++ t) ∧
    (("-l" ∈ pySplitWs P.arguments ∨ "--log" ∈ pySplitWs P.arguments) →
      (PybotProfile.get_command_args P env).count "-l" =
        (pySplitWs P.arguments).count "-l") ∧
    (("-r" ∈ pySplitWs P.arguments ∨ "--report" ∈ pySplitWs P.arguments) →
      (PybotProfile.get_command_args P env).count "-r" =
        (pySplitWs P.arguments).count "-r") ∧
    (("-o" ∈ pySplitWs P.arguments ∨ "--output" ∈ pySplitWs P.arguments) →
      (PybotProfile.get_command_args P env).count "-o" =
        (pySplitWs P.arguments).count "-o") := by
  have habsne : ∀ x, x ∈ (["-l", "--log", "-r", "--report", "-o",
      "--output"] : List String) →
      env.abspath P.output_directory ≠ x :=
    fun x hx he => habs (he.symm ▸ hx)
  have hfmtL : PybotProfile.log_name_format P "Log.html" =
      "Smoke-Log.html" := by
    unfold PybotProfile.log_name_format
    rw [hs, hn]
    decide
  have hfmtR : PybotProfile.log_name_format P "Report.html" =
      "Smoke-Report.html" := by
    unfold PybotProfile.log_name_format
    rw [hs, hn]
    decide
  have hfmtO : PybotProfile.log_name_format P "Output.xml" =
      "Smoke-Output.xml" := by
    unfold PybotProfile.log_name_format
    rw [hs, hn]
    decide
  refine ⟨?_, ?_, ?_, ?_⟩
  · intro hflags
    have hstep : ∃ d, PybotProfile.step_outputdir P env
        (pySplitWs P.arguments) = pySplitWs P.arguments ++ d ∧
        (d = ["-d", env.abspath P.output_directory] ∨ d = []) := by
      unfold PybotProfile.step_outputdir
      exact addArgs_eq_append _ _ _
    obtain ⟨d, hd, hdc⟩ := hstep
    have hmemd : ∀ x, x ∈ (["-l", "--log", "-r", "--report", "-o",
        "--output"] : List String) → x ∉ pySplitWs P.arguments ++ d := by
      intro x hx hmem
      rcases List.mem_append.mp hmem with hm | hm
      · exact hflags x hx hm
      · rcases hdc with hdc | hdc
        · subst hdc
          rcases List.mem_cons.mp hm with hm | hm
          · subst hm
            revert hx
            decide
          · rcases List.mem_singleton.mp hm with hm
            exact habsne x hx hm.symm
        · subst hdc
          simp at hm
    have e2 : PybotProfile.step_log P (pySplitWs P.arguments ++ d) =
        pySplitWs P.arguments ++ d ++ ["-l", "Smoke-Log.html"] := by
      unfold PybotProfile.step_log
      rw [hfmtL]
      exact addArgs_pos ⟨hs, hmemd "--log" (by decide),
        hmemd "-l" (by decide)⟩ _ _
    have e3 : PybotProfile.step_report P
        (pySplitWs P.arguments ++ d ++ ["-l", "Smoke-Log.html"]) =
        pySplitWs P.arguments ++ d ++ ["-l", "Smoke-Log.html"] ++
          ["-r", "Smoke-Report.html"] := by
      unfold PybotProfile.step_report
      rw [hfmtR]
      refine addArgs_pos ⟨hs, ?_, ?_⟩ _ _
      · intro hmem
        rcases List.mem_append.mp hmem with hm | hm
        · exact hmemd "--report" (by decide) hm
        · revert hm
          decide
      · intro hmem
        rcases List.mem_append.mp hmem with hm | hm
        · exact hmemd "-r" (by decide) hm
        · revert hm
          decide
    have e4 : PybotProfile.step_output P
        (pySplitWs P.arguments ++ d ++ ["-l", "Smoke-Log.html"] ++
          ["-r", "Smoke-Report.html"]) =
        pySplitWs P.arguments ++ d ++ ["-l", "Smoke-Log.html"] ++
          ["-r", "Smoke-Report.html"] ++ ["-o", "Smoke-Output.xml"] := by
      unfold PybotProfile.step_output
      rw [hfmtO]
      refine addArgs_pos ⟨hs, ?_, ?_⟩ _ _
      · intro hmem
        rcases List.mem_append.mp hmem with hm | hm
        · rcases List.mem_append.mp hm with hm | hm
          · exact hmemd "--output" (by decide) hm
          · revert hm
            decide
        · revert hm
          decide
      · intro hmem
        rcases List.mem_append.mp hmem with hm | hm
        · rcases List.mem_append.mp hm with hm | hm
          · exact hmemd "-o" (by decide) hm
          · revert hm
            decide
        · revert hm
          decide
    obtain ⟨t, ht⟩ := chain_from_debugfile_append P
      (pySplitWs P.arguments ++ d ++ ["-l", "Smoke-Log.html"] ++
        ["-r", "Smoke-Report.html"] ++ ["-o", "Smoke-Output.xml"])
    refine ⟨pySplitWs P.arguments ++ d, t, ?_⟩
    unfold PybotProfile.get_command_args
    rw [hd, e2, e3, e4, ht]
    simp
  · intro h
    have hneg : ¬ (P.are_log_names_with_suite_name = true ∧
        "--log" ∉ PybotProfile.step_outputdir P env (pySplitWs P.arguments) ∧
        "-l" ∉ PybotProfile.step_outputdir P env (pySplitWs P.arguments)) := by
      rintro ⟨-, hno, hnl⟩
      unfold PybotProfile.step_outputdir at hno hnl
      rcases h with h | h
      · exact hnl (mem_addArgs_left h _ _)
      · exact hno (mem_addArgs_left h _ _)
    unfold PybotProfile.get_command_args PybotProfile.step_exclude
      PybotProfile.step_include PybotProfile.step_timestamp
      PybotProfile.step_debugfile PybotProfile.step_output
      PybotProfile.step_report
    rw [count_addArgs (not_mem_map_prepend
        (fun t => str_append_ne_left (by decide)) _),
      count_addArgs (not_mem_map_prepend
        (fun t => str_append_ne_left (by decide)) _),
      count_addArgs (show ("-l" : String) ∉ ["-T"] by decide),
      count_addArgs (not_mem_pair (by decide)
        ((log_name_format_ne (x := "-l") (s := "Message.log") P
          (by decide)).symm)),
      count_addArgs (not_mem_pair (by decide)
        ((log_name_format_ne (x := "-l") (s := "Output.xml") P
          (by decide)).symm)),
      count_addArgs (not_mem_pair (by decide)
        ((log_name_format_ne (x := "-l") (s := "Report.html") P
          (by decide)).symm))]
    unfold PybotProfile.step_log
    rw [addArgs_neg hneg]
    unfold PybotProfile.step_outputdir
    rw [count_addArgs (not_mem_pair (by decide)
      ((habsne "-l" (by decide)).symm))]
  · intro h
    have hneg : ¬ (P.are_log_names_with_suite_name = true ∧
        "--report" ∉ PybotProfile.step_log P
          (PybotProfile.step_outputdir P env (pySplitWs P.arguments)) ∧
        "-r" ∉ PybotProfile.step_log P
          (PybotProfile.step_outputdir P env (pySplitWs P.arguments))) := by
      rintro ⟨-, hno, hnr⟩
      unfold PybotProfile.step_log PybotProfile.step_outputdir at hno hnr
      rcases h with h | h
      · exact hnr (mem_addArgs_left (mem_addArgs_left h _ _) _ _)
      · exact hno (mem_addArgs_left (mem_addArgs_left h _ _) _ _)
    unfold PybotProfile.get_command_args PybotProfile.step_exclude
      PybotProfile.step_include PybotProfile.step_timestamp
      PybotProfile.step_debugfile PybotProfile.step_output
    rw [count_addArgs (not_mem_map_prepend
        (fun t => str_append_ne_left (by decide)) _),
      count_addArgs (not_mem_map_prepend
        (fun t => str_append_ne_left (by decide)) _),
      count_addArgs (show ("-r" : String) ∉ ["-T"] by decide),
      count_addArgs (not_mem_pair (by decide)
        ((log_name_format_ne (x := "-r") (s := "Message.log") P
          (by decide)).symm)),
      count_addArgs (not_mem_pair (by decide)
        ((log_name_format_ne (x := "-r") (s := "Output.xml") P
          (by decide)).symm))]
    unfold PybotProfile.step_report
    rw [addArgs_neg hneg]
    unfold PybotProfile.step_log
    rw [count_addArgs (not_mem_pair (by decide)
      ((log_name_format_ne (x := "-r") (s := "Log.html") P
        (by decide)).symm))]
    unfold PybotProfile.step_outputdir
    rw [count_addArgs (not_mem_pair (by decide)
      ((habsne "-r" (by decide)).symm))]
  · intro h
    have hneg : ¬ (P.are_log_names_with_suite_name = true ∧
        "--output" ∉ PybotProfile.step_report P (PybotProfile.step_log P
          (PybotProfile.step_outputdir P env (pySplitWs P.arguments))) ∧
        "-o" ∉ PybotProfile.step_report P (PybotProfile.step_log P
          (PybotProfile.step_outputdir P env (pySplitWs P.arguments)))) := by
      rintro ⟨-, hno, hno'⟩
      unfold PybotProfile.step_report PybotProfile.step_log
        PybotProfile.step_outputdir at hno hno'
      rcases h with h | h
      · exact hno' (mem_addArgs_left (mem_addArgs_left
          (mem_addArgs_left h _ _) _ _) _ _)
      · exact hno (mem_addArgs_left (mem_addArgs_left
          (mem_addArgs_left h _ _) _ _) _ _)
    unfold PybotProfile.get_command_args PybotProfile.step_exclude
      PybotProfile.step_include PybotProfile.step_timestamp
      PybotProfile.step_debugfile
    rw [count_addArgs (not_mem_map_prepend
        (fun t => str_append_ne_left (by decide)) _),
      count_addArgs (not_mem_map_prepend
        (fun t => str_append_ne_left (by decide)) _),
      count_addArgs (show ("-o" : String) ∉ ["-T"] by decide),
      count_addArgs (not_mem_pair (by decide)
        ((log_name_format_ne (x := "-o") (s := "Message.log") P
          (by decide)).symm))]
    unfold PybotProfile.step_output
    rw [addArgs_neg hneg]
    unfold PybotProfile.step_report
    rw [count_addArgs (not_mem_pair (by decide)
      ((log_name_format_ne (x := "-o") (s := "Report.html") P
        (by decide)).symm))]
    unfold PybotProfile.step_log
    rw [count_addArgs (not_mem_pair (by decide)
      ((log_name_format_ne (x := "-o") (s := "Log.html") P
        (by decide)).symm))]
    unfold PybotProfile.step_outputdir
    rw [count_addArgs (not_mem_pair (by decide)
      ((habsne "-o" (by decide)).symm))]

/-- Witness for `get_command_args_suite_logs`: the inclusion branch at the
empty argument string and the suppression branch at a user-supplied `-l`. -/
theorem get_command_args_suite_logs_witness :
    (∃ l t, PybotProfile.get_command_args profileSmoke envId =
      l ++ ["-l", "Smoke-Log.html", "-r", "Smoke-Report.html",
        "-o", "Smoke-Output.xml"] ++ t) ∧
    (PybotProfile.get_command_args profileSmokeUserL envId).count "-l" =
      (pySplitWs profileSmokeUserL.arguments).count "-l" := by
  constructor
  · exact (get_command_args_suite_logs profileSmoke envId rfl rfl
      (by decide)).1 (by decide)
  · exact (get_command_args_suite_logs profileSmokeUserL envId rfl rfl
      (by decide)).2.1 (Or.inl (by decide))

/-! ## C1: executable resolution in `get_command` -/

/-- C1 counterexample: in the environment where every probe runs and exits
with status 0 (no spawn failure, no acceptance), every candidate fails,
yet `get_command` returns the integer exit status 0 — not the sentinel
failure value — and the legacy `pybot` candidate is never probed (the
probe trace is `robot`, `robot`). -/
theorem get_command_counterexample :
    (∀ c ∈ candidateNames false,
      ((fun _ => some 0) : String → Option Int) c ≠ some 251) ∧
    (PybotProfile.get_command false (fun _ => some 0)).2 =
      CmdResult.code 0 ∧
    (PybotProfile.get_command false (fun _ => some 0)).2 ≠
      CmdResult.noPybot ∧
    (PybotProfile.get_command false (fun _ => some 0)).1 =
      ["robot", "robot"] := by
  refine ⟨by decide, by decide, by decide, by decide⟩

/-- C1 (amended): `get_command` attempts candidates in a trace that
follows the fixed preference order (`robot`, its platform variant, the
legacy `pybot` variant — the latter reached only through the `OSError`
handler); a candidate is returned as the command if and only if its
version query exited with status 251; when no candidate's probe exits
with 251 the function still returns — either the sentinel `"no pybot"`
or the non-251 exit status of the last probe that ran; and the sentinel
is returned exactly when the `pybot` probe raised a spawn failure after
the first `try` block itself failed with a spawn failure. -/
theorem get_command_resolution (isNT : Bool) (probe : String → Option Int) :
    (PybotProfile.get_command isNT probe).1.Sublist (candidateNames isNT) ∧
    (∀ c, (PybotProfile.get_command isNT probe).2 = CmdResult.cmd c →
      probe c = some 251 ∧ c ∈ candidateNames isNT) ∧
    ((∀ c ∈ candidateNames isNT, probe c ≠ some 251) →
      (PybotProfile.get_command isNT probe).2 = CmdResult.noPybot ∨
        ∃ r : Int, r ≠ 251 ∧
          (PybotProfile.get_command isNT probe).2 = CmdResult.code r) ∧
    ((PybotProfile.get_command isNT probe).2 = CmdResult.noPybot ↔
      probe (pybotVariant isNT) = none ∧
        (probe "robot" = none ∨ ∃ r : Int, probe "robot" = some r ∧
          r ≠ 251 ∧ probe (robotVariant isNT) = none)) := by
  simp only [candidateNames]
  rcases h1 : probe "robot" with _ | r1
  · rcases h3 : probe (pybotVariant isNT) with _ | r3
    · have key : PybotProfile.get_command isNT probe =
          (["robot", pybotVariant isNT], CmdResult.noPybot) := by
        simp [PybotProfile.get_command, PybotProfile.pybot_fallback, h1, h3]
      rw [key]
      refine ⟨((List.Sublist.refl _).cons _).cons₂ _, ?_,
        fun _ => Or.inl rfl, ?_⟩
      · intro c hc
        exact absurd hc (by simp)
      · exact ⟨fun _ => ⟨rfl, Or.inl rfl⟩, fun _ => rfl⟩
    · by_cases hr3 : r3 = 251
      · subst hr3
        have key : PybotProfile.get_command isNT probe =
            (["robot", pybotVariant isNT],
              CmdResult.cmd (pybotVariant isNT)) := by
          simp [PybotProfile.get_command, PybotProfile.pybot_fallback, h1, h3]
        rw [key]
        refine ⟨((List.Sublist.refl _).cons _).cons₂ _, ?_, ?_, ?_⟩
        · intro c hc
          cases hc
          exact ⟨h3, by simp⟩
        · intro hall
          exact absurd h3 (hall _ (by simp))
        · constructor
          · intro h
            exact absurd h (by simp)
          · rintro ⟨hpv, -⟩
            cases hpv
      · have key : PybotProfile.get_command isNT probe =
            (["robot", pybotVariant isNT], CmdResult.code r3) := by
          simp [PybotProfile.get_command, PybotProfile.pybot_fallback,
            h1, h3, hr3]
        rw [key]
        refine ⟨((List.Sublist.refl _).cons _).cons₂ _, ?_,
          fun _ => Or.inr ⟨r3, hr3, rfl⟩, ?_⟩
        · intro c hc
          exact absurd hc (by simp)
        · constructor
          · intro h
            exact absurd h (by simp)
          · rintro ⟨hpv, -⟩
            cases hpv
  · by_cases hr1 : r1 = 251
    · subst hr1
      have key : PybotProfile.get_command isNT probe =
          (["robot"], CmdResult.cmd "robot") := by
        simp [PybotProfile.get_command, h1]
      rw [key]
      refine ⟨(List.nil_sublist _).cons₂ _, ?_, ?_, ?_⟩
      · intro c hc
        cases hc
        exact ⟨h1, by simp⟩
      · intro hall
        exact absurd h1 (hall "robot" (by simp))
      · constructor
        · intro h
          exact absurd h (by simp)
        · rintro ⟨-, h | ⟨r, hr, hrne, -⟩⟩
          · cases h
          · injection hr with hh
            exact absurd hh.symm hrne
    · rcases h2 : probe (robotVariant isNT) with _ | r2
      · rcases h3 : probe (pybotVariant isNT) with _ | r3
        · have key : PybotProfile.get_command isNT probe =
              (["robot", robotVariant isNT, pybotVariant isNT],
                CmdResult.noPybot) := by
            simp [PybotProfile.get_command, PybotProfile.pybot_fallback,
              h1, h2, h3, hr1]
          rw [key]
          refine ⟨List.Sublist.refl _, ?_, fun _ => Or.inl rfl, ?_⟩
          · intro c hc
            exact absurd hc (by simp)
          · exact ⟨fun _ => ⟨rfl, Or.inr ⟨r1, rfl, hr1, rfl⟩⟩,
              fun _ => rfl⟩
        · by_cases hr3 : r3 = 251
          · subst hr3
            have key : PybotProfile.get_command isNT probe =
                (["robot", robotVariant isNT, pybotVariant isNT],
                  CmdResult.cmd (pybotVariant isNT)) := by
              simp [PybotProfile.get_command, PybotProfile.pybot_fallback,
                h1, h2, h3, hr1]
            rw [key]
            refine ⟨List.Sublist.refl _, ?_, ?_, ?_⟩
            · intro c hc
              cases hc
              exact ⟨h3, by simp⟩
            · intro hall
              exact absurd h3 (hall _ (by simp))
            · constructor
              · intro h
                exact absurd h (by simp)
              · rintro ⟨hpv, -⟩
                cases hpv
          · have key : PybotProfile.get_command isNT probe =
                (["robot", robotVariant isNT, pybotVariant isNT],
                  CmdResult.code r3) := by
              simp [PybotProfile.get_command, PybotProfile.pybot_fallback,
                h1, h2, h3, hr1, hr3]
            rw [key]
            refine ⟨List.Sublist.refl _, ?_,
              fun _ => Or.inr ⟨r3, hr3, rfl⟩, ?_⟩
            · intro c hc
              exact absurd hc (by simp)
            · constructor
              · intro h
                exact absurd h (by simp)
              · rintro ⟨hpv, -⟩
                cases hpv
      · by_cases hr2 : r2 = 251
        · subst hr2
          have key : PybotProfile.get_command isNT probe =
              (["robot", robotVariant isNT],
                CmdResult.cmd (robotVariant isNT)) := by
            simp [PybotProfile.get_command, h1, h2, hr1]
          rw [key]
          refine ⟨((List.nil_sublist _).cons₂ _).cons₂ _, ?_, ?_, ?_⟩
          · intro c hc
            cases hc
            exact ⟨h2, by simp⟩
          · intro hall
            exact absurd h2 (hall _ (by simp))
          · constructor
            · intro h
              exact absurd h (by simp)
            · rintro ⟨-, h | ⟨r, hr, -, hrv⟩⟩
              · cases h
              · cases hrv
        · have key : PybotProfile.get_command isNT probe =
              (["robot", robotVariant isNT], CmdResult.code r2) := by
            simp [PybotProfile.get_command, h1, h2, hr1, hr2]
          rw [key]
          refine ⟨((List.nil_sublist _).cons₂ _).cons₂ _, ?_,
            fun _ => Or.inr ⟨r2, hr2, rfl⟩, ?_⟩
          · intro c hc
            exact absurd hc (by simp)
          · constructor
            · intro h
              exact absurd h (by simp)
            · rintro ⟨-, h | ⟨r, hr, -, hrv⟩⟩
              · cases h
              · cases hrv

/-- Witness for `get_command_resolution`: the all-spawn-failure
environment, resolving to the sentinel. -/
theorem get_command_resolution_witness :
    (PybotProfile.get_command false ((fun _ => none) :
        String → Option Int)).2 = CmdResult.noPybot ∨
      ∃ r : Int, r ≠ 251 ∧ (PybotProfile.get_command false
        ((fun _ => none) : String → Option Int)).2 = CmdResult.code r :=
  (get_command_resolution false (fun _ => none)).2.2.1 (by decide)

/-! ## C4: argument-string validation messages -/

/-- C4 counterexample: `_get_invalid_message("--help")` is not `None` —
the `Information` outcome of the help query is turned into the message
`Does not execute - help or version option given`, so the claim that
`--help` yields no error message fails. -/
theorem validation_help_counterexample :
    PybotProfile.get_invalid_message "--help" =
      Validation.msg "Does not execute - help or version option given" ∧
    Validation.msg "Does not execute - help or version option given" ≠
      Validation.ok := by
  exact ⟨by decide, by decide⟩

/-- C4 (amended): validating `"--unknown-flag"` yields a non-empty
`Unknown option(s)` message naming the offending option, while
`"--help"` yields the fixed non-`None` informational message
`Does not execute - help or version option given` (rather than an
unknown-option error). -/
theorem validation_messages :
    PybotProfile.get_invalid_message "--unknown-flag" =
      Validation.msg "Unknown option(s): --unknown-flag" ∧
    containsSub "Unknown option(s)"
      "Unknown option(s): --unknown-flag" = true ∧
    containsSub "--unknown-flag"
      "Unknown option(s): --unknown-flag" = true ∧
    PybotProfile.get_invalid_message "--help" =
      Validation.msg "Does not execute - help or version option given" := by
  refine ⟨by decide, by decide, by decide, by decide⟩

/-! ## C5: `format_error` failure classification -/

/-- C5: for every stderr string and return code, the standard profile's
`format_error` yields the fixed installation-guidance message as second
element exactly when the stderr contains one of the code's "not found"
phrasings (`not found`, or the Windows
`system cannot find the file specified`) or the return code is 127, and
`None` otherwise; the first element is always the raw error; the
custom-script profile always yields `None` as second element. -/
theorem format_error_classification (error : String) (returncode : Int) :
    ((PybotProfile.format_error error returncode).2 =
        some { message := RF_INSTALLATION_NOT_FOUND, notify_user := true } ↔
      notFoundPhrase error ∨ returncode = 127) ∧
    (¬ (notFoundPhrase error ∨ returncode = 127) →
      (PybotProfile.format_error error returncode).2 = none) ∧
    (PybotProfile.format_error error returncode).1 = error ∧
    (CustomScriptProfile.format_error error returncode).2 = none := by
  unfold PybotProfile.format_error CustomScriptProfile.format_error
    BaseProfile.format_error PybotProfile.create_error_log_message
    CustomScriptProfile.create_error_log_message notFoundPhrase
  by_cases hA : containsSub "not found" error = true <;>
    by_cases hB :
      containsSub "system cannot find the file specified" error = true <;>
      by_cases hC : returncode = 127 <;>
        simp [hA, hB, hC]

/-- Witness for `format_error_classification`: a `command not found`
stderr produces the guidance message; an unrelated error does not. -/
theorem format_error_classification_witness :
    (PybotProfile.format_error "sh: robot: command not found" 0).2 =
      some { message := RF_INSTALLATION_NOT_FOUND, notify_user := true } ∧
    (PybotProfile.format_error "boom" 0).2 = none := by
  constructor
  · exact (format_error_classification "sh: robot: command not found" 0).1.mpr
      (Or.inl (Or.inl (by decide)))
  · exact (format_error_classification "boom" 0).2.1 (by decide)

/-! ## C6: layered setting lookup of `__getattr__` -/

/-- C6: reading a setting resolves, in order, a plugin attribute named
`<profile>_<attr>`, then a plugin attribute named `<attr>`, then the
profile's declared default, and fails (the `AttributeError` is re-raised,
modelled as `none`) when none of the three exists. -/
theorem getattr_setting_fallback (α : Type)
    (plugin defaults : String → Option α) (pn n : String) :
    (∀ v, plugin (BaseProfile.get_setting_name pn n) = some v →
      BaseProfile.getattr plugin defaults pn n = some v) ∧
    (plugin (BaseProfile.get_setting_name pn n) = none →
      ∀ v, plugin n = some v →
        BaseProfile.getattr plugin defaults pn n = some v) ∧
    (plugin (BaseProfile.get_setting_name pn n) = none → plugin n = none →
      BaseProfile.getattr plugin defaults pn n = defaults n) ∧
    (plugin (BaseProfile.get_setting_name pn n) = none → plugin n = none →
      defaults n = none → BaseProfile.getattr plugin defaults pn n = none) := by
  unfold BaseProfile.getattr
  refine ⟨?_, ?_, ?_, ?_⟩
  · intro v h
    rw [h]
  · intro h v h2
    rw [h, h2]
  · intro h h2
    rw [h, h2]
  · intro h h2 h3
    rw [h, h2, h3]

/-- Witness for `getattr_setting_fallback`: a namespaced plugin setting
wins the lookup. -/
theorem getattr_setting_fallback_witness :
    BaseProfile.getattr (fun s => if s = "robot_x" then some 1 else none)
      (fun _ => (none : Option Nat)) "robot" "x" = some 1 :=
  (getattr_setting_fallback Nat
    (fun s => if s = "robot_x" then some 1 else none)
    (fun _ => none) "robot" "x").1 1 (by decide)

/-! ## C7: `get_settings` console log name -/

/-- C7: with `are_saving_logs=True` and both name options off,
`get_settings()` returns exactly `['console_log_name', 'Console.txt']`;
with `are_saving_logs=False` it returns the empty list. -/
theorem get_settings_console_log (P : Profile) (ts : String) :
    (P.are_saving_logs = true → P.are_log_names_with_timestamp = false →
      P.are_log_names_with_suite_name = false →
      PybotProfile.get_settings P ts =
        ["console_log_name", "Console.txt"]) ∧
    (P.are_saving_logs = false → PybotProfile.get_settings P ts = []) := by
  constructor
  · intro h1 h2 h3
    simp [PybotProfile.get_settings, h1, h2, h3]
  · intro h1
    simp [PybotProfile.get_settings, h1]

/-- Witness for `get_settings_console_log` at the concrete profiles of
the claim. -/
theorem get_settings_console_log_witness :
    PybotProfile.get_settings profileSaveLogs "TS" =
      ["console_log_name", "Console.txt"] ∧
    PybotProfile.get_settings defaultProfile "TS" = [] := by
  constructor
  · exact (get_settings_console_log profileSaveLogs "TS").1 rfl rfl rfl
  · exact (get_settings_console_log defaultProfile "TS").2 rfl
